import Mathlib

/-!
Verification development for the onetap-app notification core: the
server-side relay endpoint (backend/src/routes/notifications.ts) and the
client-side OneSignal notification context (app/notification-preferences.tsx).

The relay handler is embedded as a pure function from the request body, the
configured REST key, and the behaviour of the external provider call to the
HTTP response it sends plus the list of outbound provider calls it issues.
The try/catch around the handler body is made explicit via an Except value:
an error carries the thrown message (some m for an Error with message m,
none for a non-Error throw) together with the provider calls issued so far.

The client context is embedded as a state type plus functions for the
mount-time effect, the two SDK event handlers, and the three imperative
operations, each parameterised by the behaviour of the underlying SDK call.
-/

/-- Single-key localized text object, as in the headings and contents fields
of the OneSignal payload. -/
structure EnMap where
  en : String
deriving DecidableEq, Repr

/-- The payload the relay posts to the OneSignal notifications endpoint. -/
structure OneSignalPayload where
  app_id : String
  included_segments : List String
  headings : EnMap
  contents : EnMap
deriving DecidableEq, Repr

/-- The static OneSignal application id hard-coded in the route handler. -/
def oneSignalAppId : String := "84bd5859-82bd-44dd-8a2e-c7e1ccca59f9"

/-- Payload construction from the handler: app_id is the static id, the
segment list is always the single segment All, and title and message become
the english headings and contents. -/
def mkPayload (title message : String) : OneSignalPayload :=
  { app_id := oneSignalAppId
    included_segments := ["All"]
    headings := { en := title }
    contents := { en := message } }

/-- Inbound request body. A field is none when absent from the JSON body
(undefined after destructuring) and some s when present with value s. -/
structure SendNotificationBody where
  title : Option String
  message : Option String
deriving DecidableEq, Repr

/-- The response the relay sends: HTTP status plus the JSON body fields.
An Option field that is none is omitted from the JSON object. -/
structure RelayResponse where
  status : Nat
  success : Bool
  notificationId : Option String
  error : Option String
deriving DecidableEq, Repr

/-- JavaScript falsiness of an optional string: undefined and the empty
string are falsy, every other string is truthy. -/
def falsy : Option String → Bool
  | none => true
  | some s => s == ""

/-- Behaviour of the outbound provider call, covering every control path of
the handler after fetch is invoked: the fetch itself throws; the response
has a non-2xx status with the given status text and raw body; the response
is 2xx but parsing its JSON throws; or the response is 2xx with a parsed
body whose optional id field is given. A thrown value is some m when it is
an Error with message m and none otherwise. -/
inductive ProviderOutcome where
  | fetchThrows (errMsg : Option String)
  | errorStatus (statusText rawBody : String)
  | okJsonThrows (errMsg : Option String)
  | okJson (id : Option String)
deriving DecidableEq, Repr

/-- Result of one invocation of the relay handler: the reply sent to the
caller and the outbound provider calls issued, in order. -/
structure RelayResult where
  response : RelayResponse
  providerCalls : List OneSignalPayload
deriving DecidableEq, Repr

/-- The body of the try block of the route handler. An ok result is the
reply sent by a return path inside the try block; an error result is an
exception reaching the surrounding catch, carrying the thrown message and
the provider calls already issued. -/
def handlerBody (body : SendNotificationBody) (restApiKey : Option String)
    (provider : ProviderOutcome) :
    Except (Option String × List OneSignalPayload)
      (RelayResponse × List OneSignalPayload) :=
  if falsy body.title || falsy body.message then
    Except.ok
      ({ status := 400, success := false, notificationId := none,
         error := some "Missing required fields: title and message" }, [])
  else if falsy restApiKey then
    Except.ok
      ({ status := 500, success := false, notificationId := none,
         error := some "OneSignal not configured" }, [])
  else
    let payload := mkPayload (body.title.getD "") (body.message.getD "")
    match provider with
    | ProviderOutcome.fetchThrows errMsg => Except.error (errMsg, [payload])
    | ProviderOutcome.errorStatus statusText _rawBody =>
        Except.ok
          ({ status := 500, success := false, notificationId := none,
             error := some ("OneSignal API error: " ++ statusText) }, [payload])
    | ProviderOutcome.okJsonThrows errMsg => Except.error (errMsg, [payload])
    | ProviderOutcome.okJson id =>
        Except.ok
          ({ status := 200, success := true, notificationId := id,
             error := none }, [payload])

/-- The full route handler for POST /api/notifications/send: the try block
wrapped in the catch that converts any thrown value into an HTTP 500 reply
whose error field is the message of the Error, or the fixed fallback text
when the thrown value is not an Error. -/
def sendNotificationHandler (body : SendNotificationBody)
    (restApiKey : Option String) (provider : ProviderOutcome) : RelayResult :=
  match handlerBody body restApiKey provider with
  | Except.ok (resp, calls) => { response := resp, providerCalls := calls }
  | Except.error (errMsg, calls) =>
      { response :=
          { status := 500, success := false, notificationId := none,
            error := some (errMsg.getD "Unknown error occurred") }
        providerCalls := calls }

/-- Data captured from a foreground notification into lastNotification. -/
structure LastNotif where
  title : Option String
  body : Option String
  additionalData : List (String × String)
deriving DecidableEq, Repr

/-- The state held by the NotificationProvider component. -/
structure ClientState where
  hasPermission : Bool
  permissionDenied : Bool
  loading : Bool
  lastNotification : Option LastNotif
deriving DecidableEq, Repr

/-- The useState initial values of the provider. -/
def initialState : ClientState :=
  { hasPermission := false, permissionDenied := false, loading := true,
    lastNotification := none }

/-- Calls made against the OneSignal SDK. -/
inductive SDKCall where
  | initCall (appId : String)
  | hasPermissionQuery
  | addForegroundListenerCall
  | addPermissionListenerCall
  | promptPermission (fallbackToSettings : Bool)
  | addTag (key value : String)
  | removeTag (key : String)
deriving DecidableEq, Repr

/-- Behaviour of the SDK during the mount effect: one of the four SDK calls
in the try block throws, or all succeed; perm is the value returned by the
hasPermission query when that call is reached. -/
inductive InitOutcome where
  | initThrows
  | permQueryThrows
  | foregroundListenerThrows (perm : Bool)
  | permListenerThrows (perm : Bool)
  | ok (perm : Bool)
deriving DecidableEq, Repr

/-- The try block of the mount effect. State updates made before a throw
persist, so the error case carries the state and calls reached so far. -/
def initBody (appId : String) (out : InitOutcome) (s : ClientState) :
    Except (ClientState × List SDKCall) (ClientState × List SDKCall) :=
  match out with
  | InitOutcome.initThrows => Except.error (s, [SDKCall.initCall appId])
  | InitOutcome.permQueryThrows =>
      Except.error (s, [SDKCall.initCall appId, SDKCall.hasPermissionQuery])
  | InitOutcome.foregroundListenerThrows perm =>
      Except.error ({ s with hasPermission := perm },
        [SDKCall.initCall appId, SDKCall.hasPermissionQuery,
         SDKCall.addForegroundListenerCall])
  | InitOutcome.permListenerThrows perm =>
      Except.error ({ s with hasPermission := perm },
        [SDKCall.initCall appId, SDKCall.hasPermissionQuery,
         SDKCall.addForegroundListenerCall, SDKCall.addPermissionListenerCall])
  | InitOutcome.ok perm =>
      Except.ok ({ s with hasPermission := perm },
        [SDKCall.initCall appId, SDKCall.hasPermissionQuery,
         SDKCall.addForegroundListenerCall, SDKCall.addPermissionListenerCall])

/-- The mount effect of the provider: return early with loading cleared on
web or when the app id is empty; otherwise run the try block, catch any
exception, and clear loading in the finally block on every path. -/
def initRun (isWeb : Bool) (appId : String) (out : InitOutcome)
    (s : ClientState) : ClientState × List SDKCall :=
  if isWeb then ({ s with loading := false }, [])
  else if appId == "" then ({ s with loading := false }, [])
  else
    match initBody appId out s with
    | Except.ok (s2, calls) => ({ s2 with loading := false }, calls)
    | Except.error (s2, calls) => ({ s2 with loading := false }, calls)

/-- The permissionChange event handler registered during the mount effect. -/
def onPermissionChange (granted : Bool) (s : ClientState) : ClientState :=
  { s with hasPermission := granted, permissionDenied := !granted }

/-- The foregroundWillDisplay event handler registered during the mount
effect: display the notification and record its data. -/
def onForegroundWillDisplay (n : LastNotif) (s : ClientState) : ClientState :=
  { s with lastNotification := some n }

/-- Result of a single SDK call that either returns a value or throws. -/
inductive CallResult (α : Type) where
  | ok (a : α)
  | throws
deriving DecidableEq, Repr

/-- The try block of requestPermission: prompt the user via the SDK, and on
success update both permission flags from the returned boolean. -/
def requestPermissionBody (res : CallResult Bool) (s : ClientState) :
    Except (ClientState × List SDKCall) (ClientState × Bool × List SDKCall) :=
  match res with
  | CallResult.ok granted =>
      Except.ok ({ s with hasPermission := granted,
                          permissionDenied := !granted },
        granted, [SDKCall.promptPermission true])
  | CallResult.throws => Except.error (s, [SDKCall.promptPermission true])

/-- The requestPermission operation: returns false immediately on web with
no SDK call; otherwise runs the try block, and the catch turns a throw into
a false result with the state unchanged. -/
def requestPermissionRun (isWeb : Bool) (res : CallResult Bool)
    (s : ClientState) : ClientState × Bool × List SDKCall :=
  if isWeb then (s, false, [])
  else
    match requestPermissionBody res s with
    | Except.ok r => r
    | Except.error (s2, calls) => (s2, false, calls)

/-- The try block of sendTag: a single addTag SDK call. -/
def sendTagBody (key value : String) (res : CallResult Unit) :
    Except (List SDKCall) (List SDKCall) :=
  match res with
  | CallResult.ok _ => Except.ok [SDKCall.addTag key value]
  | CallResult.throws => Except.error [SDKCall.addTag key value]

/-- The sendTag operation: no-op on web, otherwise the addTag call with any
exception swallowed by the catch. It never changes the client state. -/
def sendTagRun (isWeb : Bool) (key value : String) (res : CallResult Unit) :
    List SDKCall :=
  if isWeb then []
  else
    match sendTagBody key value res with
    | Except.ok calls => calls
    | Except.error calls => calls

/-- The try block of deleteTag: a single removeTag SDK call. -/
def deleteTagBody (key : String) (res : CallResult Unit) :
    Except (List SDKCall) (List SDKCall) :=
  match res with
  | CallResult.ok _ => Except.ok [SDKCall.removeTag key]
  | CallResult.throws => Except.error [SDKCall.removeTag key]

/-- The deleteTag operation: no-op on web, otherwise the removeTag call with
any exception swallowed by the catch. It never changes the client state. -/
def deleteTagRun (isWeb : Bool) (key : String) (res : CallResult Unit) :
    List SDKCall :=
  if isWeb then []
  else
    match deleteTagBody key res with
    | Except.ok calls => calls
    | Except.error calls => calls

/-- States of the notification manager reachable in a run of the component:
the initial render state, the state after the mount effect runs once from
the initial state, and anything obtained from a reachable state by the two
SDK event handlers or a requestPermission call. The tag operations do not
touch the state. -/
inductive Reachable : ClientState → Prop where
  | init0 : Reachable initialState
  | afterInit (w : Bool) (a : String) (o : InitOutcome) :
      Reachable (initRun w a o initialState).1
  | permChangeStep (g : Bool) {s : ClientState} :
      Reachable s → Reachable (onPermissionChange g s)
  | foregroundStep (n : LastNotif) {s : ClientState} :
      Reachable s → Reachable (onForegroundWillDisplay n s)
  | reqPermStep (w : Bool) (res : CallResult Bool) {s : ClientState} :
      Reachable s → Reachable (requestPermissionRun w res s).1

/-- Helper: a truthy string makes falsy false. -/
theorem falsy_some_eq_false {s : String} (h : s ≠ "") :
    falsy (some s) = false := by
  simp [falsy, h]

/-- C1: for a request with non-empty title and message and a truthy REST
key, the handler issues exactly one provider POST, whose payload is the
static app id, the single segment All, and the english headings and
contents built from title and message; and when the provider replies 2xx
with optional id, the handler replies HTTP 200 with success true and
notificationId equal to that id (omitted when the provider body has none). -/
theorem c1_send_success (t m k : String) (id : Option String)
    (ht : t ≠ "") (hm : m ≠ "") (hk : k ≠ "") :
    sendNotificationHandler ⟨some t, some m⟩ (some k)
        (ProviderOutcome.okJson id) =
      { response :=
          { status := 200, success := true, notificationId := id,
            error := none }
        providerCalls := [mkPayload t m] } := by
  simp [sendNotificationHandler, handlerBody, falsy_some_eq_false ht,
    falsy_some_eq_false hm, falsy_some_eq_false hk]

/-- Witness for C1 at a concrete request. -/
theorem c1_send_success_witness :
    sendNotificationHandler ⟨some "Hello", some "World"⟩ (some "rk")
        (ProviderOutcome.okJson (some "abc123")) =
      { response :=
          { status := 200, success := true,
            notificationId := some "abc123", error := none }
        providerCalls := [mkPayload "Hello" "World"] } :=
  c1_send_success "Hello" "World" "rk" (some "abc123")
    (by decide) (by decide) (by decide)

/-- C2: whenever title or message is falsy (absent or empty), the handler
replies HTTP 400 with the fixed missing-fields error and issues no
provider call, for every key configuration and provider behaviour. -/
theorem c2_validation (body : SendNotificationBody)
    (restApiKey : Option String) (provider : ProviderOutcome)
    (h : (falsy body.title || falsy body.message) = true) :
    sendNotificationHandler body restApiKey provider =
      { response :=
          { status := 400, success := false, notificationId := none,
            error := some "Missing required fields: title and message" }
        providerCalls := [] } := by
  simp [sendNotificationHandler, handlerBody, h]

/-- Witness for C2 at a request with an absent title. -/
theorem c2_validation_witness :
    sendNotificationHandler ⟨none, some "World"⟩ (some "rk")
        (ProviderOutcome.okJson (some "abc123")) =
      { response :=
          { status := 400, success := false, notificationId := none,
            error := some "Missing required fields: title and message" }
        providerCalls := [] } :=
  c2_validation ⟨none, some "World"⟩ (some "rk")
    (ProviderOutcome.okJson (some "abc123")) (by decide)

/-- C3: for a request with non-empty title and message but no REST key in
the environment, the handler replies HTTP 500 with the not-configured
error and issues no provider call, for every provider behaviour. -/
theorem c3_not_configured (t m : String) (provider : ProviderOutcome)
    (ht : t ≠ "") (hm : m ≠ "") :
    sendNotificationHandler ⟨some t, some m⟩ none provider =
      { response :=
          { status := 500, success := false, notificationId := none,
            error := some "OneSignal not configured" }
        providerCalls := [] } := by
  simp [sendNotificationHandler, handlerBody, falsy, ht, hm]

/-- Witness for C3 at a concrete request. -/
theorem c3_not_configured_witness :
    sendNotificationHandler ⟨some "Hello", some "World"⟩ none
        (ProviderOutcome.okJson (some "abc123")) =
      { response :=
          { status := 500, success := false, notificationId := none,
            error := some "OneSignal not configured" }
        providerCalls := [] } :=
  c3_not_configured "Hello" "World"
    (ProviderOutcome.okJson (some "abc123")) (by decide) (by decide)

/-- C4: for a well-formed request, when the provider replies with a non-2xx
status, the handler replies HTTP 500 whose error is the fixed text plus the
status text only; the reply is a value that does not depend on the raw
provider body, so no part of that body appears in the response. -/
theorem c4_provider_error (t m k statusText rawBody : String)
    (ht : t ≠ "") (hm : m ≠ "") (hk : k ≠ "") :
    sendNotificationHandler ⟨some t, some m⟩ (some k)
        (ProviderOutcome.errorStatus statusText rawBody) =
      { response :=
          { status := 500, success := false, notificationId := none,
            error := some ("OneSignal API error: " ++ statusText) }
        providerCalls := [mkPayload t m] } := by
  simp [sendNotificationHandler, handlerBody, falsy_some_eq_false ht,
    falsy_some_eq_false hm, falsy_some_eq_false hk]

/-- Witness for C4 at a concrete request and provider error. -/
theorem c4_provider_error_witness :
    sendNotificationHandler ⟨some "Hello", some "World"⟩ (some "rk")
        (ProviderOutcome.errorStatus "Bad Request" "secret internals") =
      { response :=
          { status := 500, success := false, notificationId := none,
            error := some ("OneSignal API error: " ++ "Bad Request") }
        providerCalls := [mkPayload "Hello" "World"] } :=
  c4_provider_error "Hello" "World" "rk" "Bad Request" "secret internals"
    (by decide) (by decide) (by decide)

/-- C5: every exception raised inside the try block of the handler is
converted by the top-level catch into an HTTP 500 reply whose error is the
message of the thrown Error, or the fixed fallback text when the thrown
value is not an Error; the handler is a total function, so no exception
escapes to the transport layer. -/
theorem c5_catch_all (body : SendNotificationBody)
    (restApiKey : Option String) (provider : ProviderOutcome)
    (errMsg : Option String) (calls : List OneSignalPayload)
    (h : handlerBody body restApiKey provider = Except.error (errMsg, calls)) :
    sendNotificationHandler body restApiKey provider =
      { response :=
          { status := 500, success := false, notificationId := none,
            error := some (errMsg.getD "Unknown error occurred") }
        providerCalls := calls } := by
  simp [sendNotificationHandler, h]

/-- Witness for C5 at a fetch that throws a concrete Error. -/
theorem c5_catch_all_witness :
    sendNotificationHandler ⟨some "Hello", some "World"⟩ (some "rk")
        (ProviderOutcome.fetchThrows (some "network down")) =
      { response :=
          { status := 500, success := false, notificationId := none,
            error := some "network down" }
        providerCalls := [mkPayload "Hello" "World"] } :=
  c5_catch_all ⟨some "Hello", some "World"⟩ (some "rk")
    (ProviderOutcome.fetchThrows (some "network down"))
    (some "network down") [mkPayload "Hello" "World"] rfl

/-- C6: on web, requestPermission returns false immediately, leaves the
state unchanged and issues no SDK call; on a non-web platform it issues the
single SDK prompt call (with the fallback flag set), stores the returned
boolean into hasPermission and its negation into permissionDenied, and
returns that same boolean. -/
theorem c6_request_permission (s : ClientState) (res : CallResult Bool)
    (g : Bool) :
    requestPermissionRun true res s = (s, false, []) ∧
    requestPermissionRun false (CallResult.ok g) s =
      ({ s with hasPermission := g, permissionDenied := !g }, g,
        [SDKCall.promptPermission true]) := by
  exact ⟨rfl, rfl⟩

/-- C7 counterexample: the claim says that after initialization with a
missing app id every operation issues no SDK call, but sendTag is gated
only on the web flag and does not consult the app id at all, so on a
non-web platform it issues its addTag SDK call. -/
theorem c7_ops_counterexample :
    sendTagRun false "k" "v" (CallResult.ok ()) ≠ [] := by decide

/-- C7 amended: on a non-web platform, initialization with a missing app id
leaves loading false and hasPermission false and issues no SDK call, but
the subsequent operations are gated only on the web flag: requestPermission,
sendTag and deleteTag each still issue their single SDK call, completing
without throwing whatever the SDK call result is. -/
theorem c7_missing_app_id (out : InitOutcome) (res1 : CallResult Bool)
    (res2 res3 : CallResult Unit) (k v : String) (s : ClientState) :
    (initRun false "" out initialState).1.loading = false ∧
    (initRun false "" out initialState).1.hasPermission = false ∧
    (initRun false "" out initialState).2 = [] ∧
    (requestPermissionRun false res1 s).2.2 =
      [SDKCall.promptPermission true] ∧
    sendTagRun false k v res2 = [SDKCall.addTag k v] ∧
    deleteTagRun false k res3 = [SDKCall.removeTag k] := by
  refine ⟨rfl, rfl, rfl, ?_, ?_, ?_⟩
  · cases res1 <;> rfl
  · cases res2 <;> rfl
  · cases res3 <;> rfl

/-- C8: SDK failures never propagate out of the three operations. The try
blocks do raise (the body values are errors), yet the wrapped operations
return normally: requestPermission resolves to false with the state
unchanged, and sendTag followed by deleteTag on a non-web platform both
complete, each having issued its SDK call. -/
theorem c8_sdk_failures_swallowed (s : ClientState) (k v : String) :
    requestPermissionBody CallResult.throws s =
      Except.error (s, [SDKCall.promptPermission true]) ∧
    requestPermissionRun false CallResult.throws s =
      (s, false, [SDKCall.promptPermission true]) ∧
    sendTagBody k v CallResult.throws = Except.error [SDKCall.addTag k v] ∧
    sendTagRun false k v CallResult.throws = [SDKCall.addTag k v] ∧
    deleteTagBody k CallResult.throws = Except.error [SDKCall.removeTag k] ∧
    deleteTagRun false k CallResult.throws = [SDKCall.removeTag k] := by
  exact ⟨rfl, rfl, rfl, rfl, rfl, rfl⟩

/-- C9: the mount effect terminates with loading false on every path: the
web early return, the missing-app-id early return, full SDK success, and
every exception path, from any starting state. -/
theorem c9_loading_always_cleared (w : Bool) (a : String) (o : InitOutcome)
    (s : ClientState) : ((initRun w a o s).1).loading = false := by
  cases w with
  | true => rfl
  | false =>
    by_cases ha : a = ""
    · simp [initRun, ha]
    · cases o <;> simp [initRun, initBody, ha]

/-- C10: in every reachable state of the notification manager,
hasPermission and permissionDenied are never both true: the initial state
has both false, and every write to permissionDenied (the permissionChange
handler and the success path of requestPermission) sets hasPermission to
the granted boolean and permissionDenied to its negation. -/
theorem c10_flags_invariant (s : ClientState) (h : Reachable s) :
    (s.hasPermission && s.permissionDenied) = false := by
  induction h with
  | init0 => rfl
  | afterInit w a o =>
    cases w with
    | true => rfl
    | false =>
      by_cases ha : a = ""
      · simp [initRun, ha, initialState]
      · cases o <;> simp [initRun, initBody, ha, initialState]
  | permChangeStep g h ih => cases g <;> simp [onPermissionChange]
  | foregroundStep n h ih => simpa [onForegroundWillDisplay] using ih
  | reqPermStep w res h ih =>
    cases w with
    | true => simpa [requestPermissionRun] using ih
    | false =>
      cases res with
      | ok g =>
        cases g <;> simp [requestPermissionRun, requestPermissionBody]
      | throws =>
        simpa [requestPermissionRun, requestPermissionBody] using ih

/-- Witness for C10 at a concrete reachable state, obtained by running the
mount effect and then a permissionChange event reporting a denial. -/
theorem c10_flags_invariant_witness :
    ((onPermissionChange false
        (initRun false "app" (InitOutcome.ok true) initialState).1).hasPermission &&
      (onPermissionChange false
        (initRun false "app" (InitOutcome.ok true) initialState).1).permissionDenied) =
      false :=
  c10_flags_invariant _
    (Reachable.permChangeStep false
      (Reachable.afterInit false "app" (InitOutcome.ok true)))
